import Mathlib

/-!
Verification of the Stripe webhook reconciliation core of the
guacamayo-marketing backend (`app/api/routes.py`).

The embedding models the ledger store (Supabase tables `bookings` and
`payments`) as in-memory lists, and the two webhook handlers
`_handle_payment_intent_succeeded` / `_handle_payment_intent_failed` plus the
`stripe_webhook` endpoint as pure functions over that store.

Modelling conventions, matching the Python source:
  * Currency amounts (Python floats) are modelled as rationals; the source
    divides the minor-unit integer amount by 100.0.
  * `supabase.from_(t).select(...).eq(k, v).maybe_single()` is a first-match
    lookup returning an optional row; `.single()` additionally errors when no
    row matches.
  * The store-assigned `payments.id` primary key is modelled by a counter
    `nextId` in the store state.
  * Row timestamps: the SQL expression written by the source for
    `updated_at` is modelled by a `now` parameter passed to each handler.
  * External store faults (a select/insert/update raising an exception at
    the client) are injected through a `faults` list: the k-th store call of
    a handler raises iff entry k is `true`.  A faulting call performs no
    mutation.  A call wrapped by the source in try/except blocks that raise
    `HTTPException` is recorded as an HTTP error; an unwrapped call is
    recorded as a raw exception, which the endpoint turns into a generic 500.
  * The race window between the handler reading no `payments` row and
    inserting one (the source has no transaction around the two) is modelled
    by an `interfere` parameter: an optional row a concurrent actor commits
    inside that window.  The unique constraint on `payments.booking_id`
    then rejects the handler insert, which the Python client surfaces by
    raising.
  * `stripe.Webhook.construct_event` is external library code; its outcome
    is modelled by the `Admission` type with one constructor per `except`
    branch of the endpoint: a decoded event, `ValueError`,
    `SignatureVerificationError`, or any other exception.
-/

/-- A row of the `bookings` table (the columns the reconciler touches). -/
structure Booking where
  id : String
  user_id : Option String
  total_price : Option ℚ
  status : String
  payment_id : Option Nat
deriving DecidableEq, Repr

/-- A row of the `payments` table (the columns the reconciler touches). -/
structure Payment where
  id : Nat
  booking_id : String
  user_id : Option String
  status : String
  gateway_payment_id : Option String
  amount : ℚ
  currency : String
  updated_at : Nat
deriving DecidableEq, Repr

/-- The ledger store: both tables plus the id dispenser for `payments.id`. -/
structure DB where
  bookings : List Booking
  payments : List Payment
  nextId : Nat
deriving DecidableEq, Repr

/-- The `data.object` of a `payment_intent.*` gateway event, with its
`metadata` flattened in.  `amount` and `currency` are optional because the
failed handler reads them with `.get` and substitutes defaults. -/
structure PaymentIntent where
  id : String
  amount : Option Int
  currency : Option String
  booking_id : Option String
  user_id : Option String
deriving DecidableEq, Repr

/-- `bookings.select(...).eq('id', bid).maybe_single()`. -/
def findBooking (db : DB) (bid : String) : Option Booking :=
  db.bookings.find? (fun b => b.id == bid)

/-- `payments.select('id').eq('booking_id', bid)` with `maybe_single` or
`single`. -/
def findPayment (db : DB) (bid : String) : Option Payment :=
  db.payments.find? (fun p => p.booking_id == bid)

/-- Whether the unique constraint on `payments.booking_id` rejects an insert
for `bid`. -/
def hasPaymentFor (db : DB) (bid : String) : Bool :=
  db.payments.any (fun p => p.booking_id == bid)

/-- `payments.update(fields).eq('id', pid)`. -/
def updatePaymentRow (db : DB) (pid : Nat) (f : Payment → Payment) : DB :=
  { db with payments := db.payments.map (fun p => if p.id == pid then f p else p) }

/-- `bookings.update(status, payment_id).eq('id', bid)`. -/
def updateBookingRow (db : DB) (bid : String) (st : String) (payId : Option Nat) : DB :=
  { db with bookings :=
      db.bookings.map (fun b =>
        if b.id == bid then { b with status := st, payment_id := payId } else b) }

/-- `payments.insert(row)`: the store assigns the id. -/
def insertPaymentRow (db : DB) (row : Nat → Payment) : DB :=
  { db with payments := db.payments ++ [row db.nextId], nextId := db.nextId + 1 }

/-- One completed store round-trip, for the operation trace of a handler. -/
inductive StoreOp where
  | readBooking (bid : String)
  | readPayment (bid : String)
  | insertPayment (pid : Nat)
  | updatePayment (pid : Nat)
  | updateBooking (bid : String)
deriving DecidableEq, Repr

/-- How a handler invocation ends: Python `return True`, or an exception
(either an `HTTPException` carrying a status and detail, or a raw one). -/
inductive Outcome where
  | ok (processed : Bool)
  | err (isHttp : Bool) (status : Nat) (detail : String)
deriving DecidableEq, Repr

/-- Result of one handler invocation: the store afterwards, the trace of
completed store calls, the outcome, and whether the advisory amount-mismatch
warning fired. -/
structure HRes where
  db : DB
  ops : List StoreOp
  outcome : Outcome
  warned : Bool
deriving DecidableEq, Repr

/-- Whether the k-th store call of the handler raises a client exception. -/
def callFails (faults : List Bool) (k : Nat) : Bool :=
  faults.getD k false

/-- Shallow embedding of `_handle_payment_intent_succeeded`
(`app/api/routes.py`, lines 19-124).  Accesses `payment_intent['amount']` and
`['currency']` unconditionally (KeyError when absent), returns early when
`metadata.booking_id` is missing or the booking is not found, compares
`total_price` with the event amount only to warn, then finds-or-creates the
`payments` row and finally confirms the booking. -/
def handle_payment_intent_succeeded (faults : List Bool) (interfere : Option Payment)
    (now : Nat) (pi : PaymentIntent) (db : DB) : HRes :=
  match pi.amount, pi.currency with
  | none, _ => ⟨db, [], .err false 500 "KeyError: amount", false⟩
  | some _, none => ⟨db, [], .err false 500 "KeyError: currency", false⟩
  | some amountMinor, some currency =>
    let amount : ℚ := (amountMinor : ℚ) / 100
    match pi.booking_id with
    | none => ⟨db, [], .ok true, false⟩
    | some bid =>
      -- store call 0: select the booking (wrapped: raises HTTPException 500)
      if callFails faults 0 then
        ⟨db, [], .err true 500 "Database error fetching booking", false⟩
      else
        match findBooking db bid with
        | none => ⟨db, [StoreOp.readBooking bid], .ok true, false⟩
        | some booking =>
          -- advisory comparison of total_price with the event amount
          let warned : Bool :=
            match booking.total_price with
            | some tp => decide (|tp - amount| > 1 / 100)
            | none => false
          -- store call 1: select the payment row (wrapped: HTTPException 500)
          if callFails faults 1 then
            ⟨db, [StoreOp.readBooking bid], .err true 500 "Database error fetching payment", warned⟩
          else
            match findPayment db bid with
            | some payRow =>
              -- store call 2: update the payment row (unwrapped)
              if callFails faults 2 then
                ⟨db, [StoreOp.readBooking bid, StoreOp.readPayment bid],
                 .err false 500 "store error updating payment", warned⟩
              else
                let db2 := updatePaymentRow db payRow.id (fun p =>
                  { p with status := "succeeded", gateway_payment_id := some pi.id,
                           amount := amount, currency := currency, updated_at := now })
                -- store call 3: update the booking (unwrapped)
                if callFails faults 3 then
                  ⟨db2, [StoreOp.readBooking bid, StoreOp.readPayment bid,
                         StoreOp.updatePayment payRow.id],
                   .err false 500 "store error updating booking", warned⟩
                else
                  ⟨updateBookingRow db2 bid "confirmed" (some payRow.id),
                   [StoreOp.readBooking bid, StoreOp.readPayment bid,
                    StoreOp.updatePayment payRow.id, StoreOp.updateBooking bid],
                   .ok true, warned⟩
            | none =>
              -- race window: a concurrent actor may commit a row here
              let dbI : DB :=
                match interfere with
                | none => db
                | some q => { db with payments := db.payments ++ [q],
                                      nextId := max db.nextId (q.id + 1) }
              -- store call 2: insert the new payment row (unwrapped; the
              -- unique constraint on booking_id rejects a duplicate)
              if callFails faults 2 then
                ⟨dbI, [StoreOp.readBooking bid, StoreOp.readPayment bid],
                 .err false 500 "store error inserting payment", warned⟩
              else if hasPaymentFor dbI bid then
                ⟨dbI, [StoreOp.readBooking bid, StoreOp.readPayment bid],
                 .err false 500 "unique constraint violation on booking_id", warned⟩
              else
                let newId := dbI.nextId
                let db2 := insertPaymentRow dbI (fun pid =>
                  ⟨pid, bid, booking.user_id, "succeeded", some pi.id, amount, currency, now⟩)
                -- store call 3: read the inserted row back with .single()
                -- (wrapped: HTTPException 500)
                if callFails faults 3 then
                  ⟨db2, [StoreOp.readBooking bid, StoreOp.readPayment bid,
                         StoreOp.insertPayment newId],
                   .err true 500 "Database error searching for inserted payment", warned⟩
                else
                  match findPayment db2 bid with
                  | none =>
                    ⟨db2, [StoreOp.readBooking bid, StoreOp.readPayment bid,
                           StoreOp.insertPayment newId, StoreOp.readPayment bid],
                     .err true 500 "Inserted payment record not found", warned⟩
                  | some inserted =>
                    -- store call 4: update the booking (unwrapped)
                    if callFails faults 4 then
                      ⟨db2, [StoreOp.readBooking bid, StoreOp.readPayment bid,
                             StoreOp.insertPayment newId, StoreOp.readPayment bid],
                       .err false 500 "store error updating booking", warned⟩
                    else
                      ⟨updateBookingRow db2 bid "confirmed" (some inserted.id),
                       [StoreOp.readBooking bid, StoreOp.readPayment bid,
                        StoreOp.insertPayment newId, StoreOp.readPayment bid,
                        StoreOp.updateBooking bid],
                       .ok true, warned⟩

/-- Shallow embedding of `_handle_payment_intent_failed`
(`app/api/routes.py`, lines 126-210).  Reads `amount`/`currency` with `.get`
and defaults them to `0.0` / `usd`, returns early when `booking_id` is
missing, updates an existing payment row in place (status and
gateway_payment_id only), and otherwise resolves `user_id` from the booking
before inserting a failed row; a missing booking or `user_id` is acknowledged
with no mutation. -/
def handle_payment_intent_failed (faults : List Bool) (now : Nat)
    (pi : PaymentIntent) (db : DB) : HRes :=
  let amount : ℚ :=
    match pi.amount with
    | some a => (a : ℚ) / 100
    | none => 0
  let currency : String :=
    match pi.currency with
    | some c => c
    | none => "usd"
  match pi.booking_id with
  | none => ⟨db, [], .ok true, false⟩
  | some bid =>
    -- store call 0: select the payment row (unwrapped)
    if callFails faults 0 then
      ⟨db, [], .err false 500 "store error fetching payment", false⟩
    else
      match findPayment db bid with
      | some payRow =>
        -- store call 1: update the payment row in place (unwrapped); note
        -- the source sets only status, gateway_payment_id and updated_at
        if callFails faults 1 then
          ⟨db, [StoreOp.readPayment bid], .err false 500 "store error updating payment", false⟩
        else
          let db1 := updatePaymentRow db payRow.id (fun p =>
            { p with status := "failed", gateway_payment_id := some pi.id, updated_at := now })
          -- store call 2: update the booking (unwrapped)
          if callFails faults 2 then
            ⟨db1, [StoreOp.readPayment bid, StoreOp.updatePayment payRow.id],
             .err false 500 "store error updating booking", false⟩
          else
            ⟨updateBookingRow db1 bid "payment_failed" (some payRow.id),
             [StoreOp.readPayment bid, StoreOp.updatePayment payRow.id,
              StoreOp.updateBooking bid],
             .ok true, false⟩
      | none =>
        -- store call 1: select the booking to resolve user_id (unwrapped)
        if callFails faults 1 then
          ⟨db, [StoreOp.readPayment bid], .err false 500 "store error fetching booking", false⟩
        else
          let bookingUser : Option String :=
            match findBooking db bid with
            | none => none
            | some b => b.user_id
          match bookingUser with
          | none =>
            ⟨db, [StoreOp.readPayment bid, StoreOp.readBooking bid], .ok true, false⟩
          | some uid =>
            -- store call 2: insert the failed payment row (unwrapped)
            if callFails faults 2 then
              ⟨db, [StoreOp.readPayment bid, StoreOp.readBooking bid],
               .err false 500 "store error inserting payment", false⟩
            else if hasPaymentFor db bid then
              ⟨db, [StoreOp.readPayment bid, StoreOp.readBooking bid],
               .err false 500 "unique constraint violation on booking_id", false⟩
            else
              let newId := db.nextId
              let db2 := insertPaymentRow db (fun pid =>
                ⟨pid, bid, some uid, "failed", some pi.id, amount, currency, now⟩)
              -- store call 3: read the inserted row back with .single()
              -- (wrapped: HTTPException 500)
              if callFails faults 3 then
                ⟨db2, [StoreOp.readPayment bid, StoreOp.readBooking bid,
                       StoreOp.insertPayment newId],
                 .err true 500 "Database error searching for inserted failed payment", false⟩
              else
                match findPayment db2 bid with
                | none =>
                  ⟨db2, [StoreOp.readPayment bid, StoreOp.readBooking bid,
                         StoreOp.insertPayment newId, StoreOp.readPayment bid],
                   .err true 500 "Inserted failed payment record not found", false⟩
                | some inserted =>
                  -- store call 4: update the booking (unwrapped)
                  if callFails faults 4 then
                    ⟨db2, [StoreOp.readPayment bid, StoreOp.readBooking bid,
                           StoreOp.insertPayment newId, StoreOp.readPayment bid],
                     .err false 500 "store error updating booking", false⟩
                  else
                    ⟨updateBookingRow db2 bid "payment_failed" (some inserted.id),
                     [StoreOp.readPayment bid, StoreOp.readBooking bid,
                      StoreOp.insertPayment newId, StoreOp.readPayment bid,
                      StoreOp.updateBooking bid],
                     .ok true, false⟩

/-- Outcome of `stripe.Webhook.construct_event`, one constructor per
`except` branch of the endpoint. -/
inductive Admission where
  | ok (eventType : String) (obj : PaymentIntent)
  | invalidPayload
  | invalidSignature
  | otherError
deriving DecidableEq, Repr

/-- The HTTP response of the webhook endpoint: either the 200 body
(`received` is literally `True` in the source) or a status with a `detail`
body, as FastAPI renders both returned `JSONResponse`s and raised
`HTTPException`s. -/
inductive WResp where
  | okResp (eventType : String) (processed : Bool)
  | detailResp (status : Nat) (detail : String)
deriving DecidableEq, Repr

/-- Result of one request to the endpoint. -/
structure WebhookResult where
  db : DB
  ops : List StoreOp
  resp : WResp
deriving DecidableEq, Repr

/-- How the endpoint turns a handler outcome into a response: `True` becomes
the 200 body, an `HTTPException` is re-raised unchanged, and any other
exception becomes the generic 500. -/
def outcomeResp (ty : String) (o : Outcome) : WResp :=
  match o with
  | .ok p => .okResp ty p
  | .err true st d => .detailResp st d
  | .err false _ _ =>
      .detailResp 500 "An unexpected error occurred during webhook processing."

/-- Shallow embedding of the `stripe_webhook` endpoint
(`app/api/routes.py`, lines 212-266): missing signing secret is a 500,
admission failures are 400s, admitted events are routed by type with
unhandled types acknowledged as processed. -/
def stripe_webhook (secretConfigured : Bool) (adm : Admission) (faults : List Bool)
    (interfere : Option Payment) (now : Nat) (db : DB) : WebhookResult :=
  match secretConfigured with
  | false => ⟨db, [], .detailResp 500 "Webhook signing secret not configured."⟩
  | true =>
    match adm with
    | .invalidPayload => ⟨db, [], .detailResp 400 "Invalid payload"⟩
    | .invalidSignature => ⟨db, [], .detailResp 400 "Invalid signature"⟩
    | .otherError => ⟨db, [], .detailResp 400 "Webhook signature verification failed."⟩
    | .ok ty obj =>
      if ty = "payment_intent.succeeded" then
        let r := handle_payment_intent_succeeded faults interfere now obj db
        ⟨r.db, r.ops, outcomeResp ty r.outcome⟩
      else if ty = "payment_intent.payment_failed" then
        let r := handle_payment_intent_failed faults now obj db
        ⟨r.db, r.ops, outcomeResp ty r.outcome⟩
      else
        ⟨db, [], .okResp ty true⟩

/-- A store-write trace op mutating `payments`. -/
def isPaymentWrite : StoreOp → Bool
  | .insertPayment _ => true
  | .updatePayment _ => true
  | _ => false

/-- The booking-write discipline of the spec, checked over a trace: a
booking update may appear only as the final store call of the handler and
only after some payment write completed earlier; `seenPay` records whether a
payment write has already occurred in the prefix consumed so far. -/
def bookingWriteDiscipline (seenPay : Bool) : List StoreOp → Bool
  | [] => true
  | StoreOp.updateBooking _ :: rest => seenPay && rest.isEmpty
  | op :: rest => bookingWriteDiscipline (seenPay || isPaymentWrite op) rest

/-- The response-shape family claimed by §6 of the spec, written from the
spec wording for comparison with the endpoint: a 200 body, a 400 with one of
the two listed detail strings, or a 500. -/
def claimedRespShapeC4 (r : WResp) : Prop :=
  (∃ ty p, r = .okResp ty p) ∨
  r = .detailResp 400 "Invalid payload" ∨
  r = .detailResp 400 "Invalid signature" ∨
  (∃ d, r = .detailResp 500 d)

/-- The response-shape family the endpoint actually produces: §6 plus the
third 400 detail string of the catch-all admission branch. -/
def amendedRespShapeC4 (r : WResp) : Prop :=
  claimedRespShapeC4 r ∨ r = .detailResp 400 "Webhook signature verification failed."

/-! ## Helper lemmas about the store primitives -/

lemma find?_append_right {α} (p : α → Bool) (l : List α) (x : α)
    (h : l.find? p = none) (hx : p x = true) : (l ++ [x]).find? p = some x := by
  induction l with
  | nil => simp [List.find?, hx]
  | cons a l ih =>
    rw [List.find?_eq_none] at h
    have ha : p a = false := by
      have := h a (by simp)
      simpa using this
    have hl : l.find? p = none := by
      rw [List.find?_eq_none]
      intro x hx'
      exact h x (by simp [hx'])
    simp [List.find?, ha, ih hl]

lemma find?_map_of_pres {α} (q : α → Bool) (g : α → α) (l : List α)
    (h : ∀ a, q (g a) = q a) :
    (l.map g).find? q = (l.find? q).map g := by
  induction l with
  | nil => rfl
  | cons a l ih =>
    cases hqa : q a with
    | true =>
      simp [List.find?, h a, hqa]
    | false =>
      simp [List.find?, h a, hqa, ih]

lemma filter_map_of_pres {α} (q : α → Bool) (g : α → α) (l : List α)
    (h : ∀ a, q (g a) = q a) :
    (l.map g).filter q = (l.filter q).map g := by
  induction l with
  | nil => rfl
  | cons a l ih =>
    cases hqa : q a with
    | true => simp [List.filter, h a, hqa, ih]
    | false => simp [List.filter, h a, hqa, ih]

lemma findPayment_eq_none_of_filter_nil (db : DB) (bid : String)
    (h : db.payments.filter (fun p => p.booking_id == bid) = []) :
    findPayment db bid = none := by
  unfold findPayment
  rw [List.find?_eq_none]
  intro p hp
  have := List.filter_eq_nil_iff.mp h p hp
  simpa using this

lemma hasPaymentFor_eq_false (db : DB) (bid : String)
    (h : findPayment db bid = none) : hasPaymentFor db bid = false := by
  unfold findPayment at h
  rw [List.find?_eq_none] at h
  unfold hasPaymentFor
  rw [List.any_eq_false]
  intro p hp
  exact h p hp

lemma updateBookingRow_mem_status (db : DB) (bid : String) (st : String)
    (pid : Option Nat) :
    ∀ bk ∈ (updateBookingRow db bid st pid).bookings, bk.id = bid →
      bk.status = st ∧ bk.payment_id = pid := by
  intro bk hbk hid
  unfold updateBookingRow at hbk
  simp only [List.mem_map] at hbk
  obtain ⟨b0, _, hb0⟩ := hbk
  by_cases hcase : b0.id == bid
  · simp [hcase] at hb0
    subst hb0
    exact ⟨rfl, rfl⟩
  · simp [hcase] at hb0
    subst hb0
    simp_all

lemma findBooking_updateBookingRow (db : DB) (bid bid' : String) (st : String)
    (pid : Option Nat) :
    findBooking (updateBookingRow db bid st pid) bid' =
      (findBooking db bid').map (fun b =>
        if b.id == bid then { b with status := st, payment_id := pid } else b) := by
  unfold findBooking updateBookingRow
  exact find?_map_of_pres _ _ _ (by
    intro b
    by_cases h : b.id == bid <;> simp [h])


set_option maxHeartbeats 1000000 in
lemma succeeded_outcome_shape (faults : List Bool) (interfere : Option Payment)
    (now : Nat) (pi : PaymentIntent) (db : DB) :
    (handle_payment_intent_succeeded faults interfere now pi db).outcome = .ok true ∨
    ∃ h d, (handle_payment_intent_succeeded faults interfere now pi db).outcome =
      .err h 500 d := by
  unfold handle_payment_intent_succeeded
  iterate 8
    all_goals (try dsimp only)
    all_goals (repeat' split)
  all_goals simp

set_option maxHeartbeats 1000000 in
lemma failed_outcome_shape (faults : List Bool) (now : Nat) (pi : PaymentIntent)
    (db : DB) :
    (handle_payment_intent_failed faults now pi db).outcome = .ok true ∨
    ∃ h d, (handle_payment_intent_failed faults now pi db).outcome = .err h 500 d := by
  unfold handle_payment_intent_failed
  iterate 8
    all_goals (try dsimp only)
    all_goals (repeat' split)
  all_goals simp

/-! ## Claim theorems -/

/-- Claim C5: an admitted `payment_intent.succeeded` event whose metadata
carries no `booking_id` is acknowledged with a 200 `processed:true` response,
and the handler performs no store read or write: the store is returned
unchanged with an empty operation trace. -/
theorem succeeded_missing_booking_id_noop (i : String) (a : Int) (c : String)
    (uid : Option String) (faults : List Bool) (interfere : Option Payment)
    (now : Nat) (db : DB) :
    stripe_webhook true (.ok "payment_intent.succeeded" ⟨i, some a, some c, none, uid⟩)
      faults interfere now db =
      ⟨db, [], .okResp "payment_intent.succeeded" true⟩ := by
  rfl

/-- Claim C9: whenever the webhook endpoint returns a 200 response, the
`processed` field of that response is `true`, for every admitted event,
store state, fault pattern and race interleaving. -/
theorem webhook_200_processed_true (secret : Bool) (adm : Admission)
    (faults : List Bool) (interfere : Option Payment) (now : Nat) (db : DB)
    (ty : String) (p : Bool)
    (h : (stripe_webhook secret adm faults interfere now db).resp = .okResp ty p) :
    p = true := by
  cases secret with
  | false => simp [stripe_webhook] at h
  | true =>
    cases adm with
    | invalidPayload => simp [stripe_webhook] at h
    | invalidSignature => simp [stripe_webhook] at h
    | otherError => simp [stripe_webhook] at h
    | ok ty' obj =>
      unfold stripe_webhook at h
      dsimp only at h
      split at h
      · rcases succeeded_outcome_shape faults interfere now obj db with h2 | ⟨hh, d, h2⟩
        · rw [h2] at h
          simp [outcomeResp] at h
          exact h.2
        · rw [h2] at h
          cases hh <;> simp [outcomeResp] at h
      · split at h
        · rcases failed_outcome_shape faults now obj db with h2 | ⟨hh, d, h2⟩
          · rw [h2] at h
            simp [outcomeResp] at h
            exact h.2
          · rw [h2] at h
            cases hh <;> simp [outcomeResp] at h
        · simp at h
          exact h.2

/-- Witness for C9 at a concrete request: an unhandled event type is
acknowledged with a 200 whose processed field is true. -/
theorem webhook_200_processed_true_witness : true = true :=
  webhook_200_processed_true true (.ok "charge.refunded" ⟨"pi", none, none, none, none⟩)
    [] none 0 ⟨[], [], 0⟩ "charge.refunded" true (by rfl)

/-- Claim C4, counterexample: an admission failure that is neither a
`ValueError` nor a `SignatureVerificationError` is answered with a 400 whose
detail is a third string, outside the four response shapes the claim allows. -/
theorem webhook_resp_shape_cex :
    ¬ claimedRespShapeC4
        (stripe_webhook true .otherError [] none 0 ⟨[], [], 0⟩).resp := by
  intro h
  rcases h with ⟨ty, p, h⟩ | h | h | ⟨d, h⟩ <;> simp [stripe_webhook] at h

/-- Claim C4, amended: every response of the endpoint is a
`200 received/event_type/processed` body, a 400 whose detail is one of
`Invalid payload`, `Invalid signature` or
`Webhook signature verification failed.`, or a 500. -/
theorem webhook_resp_shape (secret : Bool) (adm : Admission) (faults : List Bool)
    (interfere : Option Payment) (now : Nat) (db : DB) :
    amendedRespShapeC4 (stripe_webhook secret adm faults interfere now db).resp := by
  unfold amendedRespShapeC4 claimedRespShapeC4
  cases secret with
  | false =>
    exact Or.inl (Or.inr (Or.inr (Or.inr ⟨_, rfl⟩)))
  | true =>
    cases adm with
    | invalidPayload => exact Or.inl (Or.inr (Or.inl rfl))
    | invalidSignature => exact Or.inl (Or.inr (Or.inr (Or.inl rfl)))
    | otherError => exact Or.inr rfl
    | ok ty obj =>
      unfold stripe_webhook
      dsimp only
      split
      · rcases succeeded_outcome_shape faults interfere now obj db with h | ⟨hh, d, h⟩
        · rw [h]
          exact Or.inl (Or.inl ⟨ty, true, rfl⟩)
        · rw [h]
          cases hh <;> exact Or.inl (Or.inr (Or.inr (Or.inr ⟨_, rfl⟩)))
      · split
        · rcases failed_outcome_shape faults now obj db with h | ⟨hh, d, h⟩
          · rw [h]
            exact Or.inl (Or.inl ⟨ty, true, rfl⟩)
          · rw [h]
            cases hh <;> exact Or.inl (Or.inr (Or.inr (Or.inr ⟨_, rfl⟩)))
        · exact Or.inl (Or.inl ⟨ty, true, rfl⟩)

lemma callFails_nil (k : Nat) : callFails [] k = false := by
  cases k <;> rfl

lemma updateBookingRow_payments (db : DB) (bid : String) (st : String)
    (pid : Option Nat) : (updateBookingRow db bid st pid).payments = db.payments := rfl

lemma insertPaymentRow_payments (db : DB) (rowfn : Nat → Payment) :
    (insertPaymentRow db rowfn).payments = db.payments ++ [rowfn db.nextId] := rfl

lemma findPayment_updateBookingRow (db : DB) (bid bid' : String) (st : String)
    (pid : Option Nat) :
    findPayment (updateBookingRow db bid st pid) bid' = findPayment db bid' := rfl

lemma findBooking_insertPaymentRow (db : DB) (rowfn : Nat → Payment) (bid : String) :
    findBooking (insertPaymentRow db rowfn) bid = findBooking db bid := rfl

lemma findPayment_insert (db : DB) (bid : String) (rowfn : Nat → Payment)
    (hp : findPayment db bid = none) (hbid : (rowfn db.nextId).booking_id = bid) :
    findPayment (insertPaymentRow db rowfn) bid = some (rowfn db.nextId) := by
  unfold findPayment at hp ⊢
  unfold insertPaymentRow
  exact find?_append_right _ _ _ hp (by simp [hbid])

/-- Claim C7: a `payment_intent.payment_failed` event whose booking has no
payment row and whose booking is missing or carries no `user_id` is
acknowledged with a 200 `processed:true` response, the store is unchanged,
and the only store operations performed are the two reads. -/
theorem failed_unresolvable_user_noop (i : String) (am : Option Int)
    (cu : Option String) (muid : Option String) (bid : String) (now : Nat)
    (db : DB)
    (hp : findPayment db bid = none)
    (hu : ∀ b, findBooking db bid = some b → b.user_id = none) :
    stripe_webhook true (.ok "payment_intent.payment_failed" ⟨i, am, cu, some bid, muid⟩)
      [] none now db =
      ⟨db, [StoreOp.readPayment bid, StoreOp.readBooking bid],
       .okResp "payment_intent.payment_failed" true⟩ := by
  have hh : handle_payment_intent_failed [] now ⟨i, am, cu, some bid, muid⟩ db =
      ⟨db, [StoreOp.readPayment bid, StoreOp.readBooking bid], .ok true, false⟩ := by
    cases hfb : findBooking db bid with
    | none => simp [handle_payment_intent_failed, callFails_nil, hp, hfb]
    | some b => simp [handle_payment_intent_failed, callFails_nil, hp, hfb, hu b hfb]
  unfold stripe_webhook
  dsimp only
  rw [if_neg (by decide), if_pos rfl, hh]
  rfl

/-- Witness for C7 at a concrete store: the referenced booking does not
exist at all. -/
theorem failed_unresolvable_user_noop_witness :
    stripe_webhook true
      (.ok "payment_intent.payment_failed" ⟨"pi_7", none, none, some "B2", none⟩)
      [] none 3 ⟨[], [], 0⟩ =
      ⟨⟨[], [], 0⟩, [StoreOp.readPayment "B2", StoreOp.readBooking "B2"],
       .okResp "payment_intent.payment_failed" true⟩ :=
  failed_unresolvable_user_noop "pi_7" none none none "B2" 3 ⟨[], [], 0⟩ (by rfl)
    (by intro b hb; simp [findBooking] at hb)

/-- Claim C10: on the failed-event insert path, a missing event `amount`
is defaulted to 0.0 and a missing `currency` to `usd` in the inserted row. -/
theorem failed_insert_defaults (i : String) (c : String) (a : Int)
    (muid : Option String) (bid : String) (uid : String) (now : Nat) (db : DB)
    (b : Booking)
    (hp : findPayment db bid = none)
    (hb : findBooking db bid = some b)
    (hu : b.user_id = some uid) :
    (∃ row : Payment,
      (handle_payment_intent_failed [] now ⟨i, none, some c, some bid, muid⟩ db).db.payments
        = db.payments ++ [row] ∧ row.amount = 0 ∧ row.currency = c) ∧
    (∃ row : Payment,
      (handle_payment_intent_failed [] now ⟨i, some a, none, some bid, muid⟩ db).db.payments
        = db.payments ++ [row] ∧ row.amount = (a : ℚ) / 100 ∧ row.currency = "usd") := by
  have hnf := hasPaymentFor_eq_false db bid hp
  constructor
  · have hread := findPayment_insert db bid
      (fun pid => ⟨pid, bid, some uid, "failed", some i, 0, c, now⟩) hp (by rfl)
    refine ⟨⟨db.nextId, bid, some uid, "failed", some i, 0, c, now⟩, ?_, rfl, rfl⟩
    simp [handle_payment_intent_failed, callFails_nil, hp, hb, hu, hnf, hread,
          updateBookingRow_payments, insertPaymentRow_payments]
  · have hread := findPayment_insert db bid
      (fun pid => ⟨pid, bid, some uid, "failed", some i, (a : ℚ) / 100, "usd", now⟩) hp (by rfl)
    refine ⟨⟨db.nextId, bid, some uid, "failed", some i, (a : ℚ) / 100, "usd", now⟩, ?_, rfl, rfl⟩
    simp [handle_payment_intent_failed, callFails_nil, hp, hb, hu, hnf, hread,
          updateBookingRow_payments, insertPaymentRow_payments]

/-- Witness for C10 at a concrete store with booking `B1` and no payment. -/
theorem failed_insert_defaults_witness :
    (∃ row : Payment,
      (handle_payment_intent_failed [] 4 ⟨"pi_9", none, some "eur", some "B1", none⟩
        ⟨[⟨"B1", some "u1", some 50, "pending", none⟩], [], 0⟩).db.payments
        = [] ++ [row] ∧ row.amount = 0 ∧ row.currency = "eur") ∧
    (∃ row : Payment,
      (handle_payment_intent_failed [] 4 ⟨"pi_9", some 700, none, some "B1", none⟩
        ⟨[⟨"B1", some "u1", some 50, "pending", none⟩], [], 0⟩).db.payments
        = [] ++ [row] ∧ row.amount = ((700 : Int) : ℚ) / 100 ∧ row.currency = "usd") :=
  failed_insert_defaults "pi_9" "eur" 700 none "B1" "u1" 4
    ⟨[⟨"B1", some "u1", some 50, "pending", none⟩], [], 0⟩
    ⟨"B1", some "u1", some 50, "pending", none⟩ (by rfl) (by rfl) rfl

/-- Claim C3, counterexample: on the failed-event update path the row keeps
its stored amount and currency — the event carries amount 700 (7.00) and
currency `eur`, yet the updated row still holds amount 50 and currency `usd`,
so the handler does not write the event amount and currency as claimed. -/
theorem failed_update_fields_cex :
    findPayment
      (handle_payment_intent_failed [] 3 ⟨"pi_9", some 700, some "eur", some "B1", none⟩
        ⟨[⟨"B1", some "u1", some 50, "pending", none⟩],
         [⟨7, "B1", some "u1", "pending", none, 50, "usd", 0⟩], 8⟩).db "B1"
      = some ⟨7, "B1", some "u1", "failed", some "pi_9", 50, "usd", 3⟩ ∧
    (50 : ℚ) ≠ ((700 : Int) : ℚ) / 100 ∧ "usd" ≠ "eur" := by
  refine ⟨by rfl, by norm_num, by decide⟩

/-- Claim C3, amended: the failed-event update mirrors the succeeded update
only in part — it sets `status` to `failed`, `gateway_payment_id` to the
event intent id and a refreshed `updated_at`, but leaves the row amount and
currency unchanged. -/
theorem failed_update_in_place (i : String) (am : Option Int) (cu : Option String)
    (muid : Option String) (bid : String) (now : Nat) (db : DB) (pr : Payment)
    (hp : findPayment db bid = some pr) :
    (handle_payment_intent_failed [] now ⟨i, am, cu, some bid, muid⟩ db).outcome
      = .ok true ∧
    ∃ pr',
      findPayment (handle_payment_intent_failed [] now ⟨i, am, cu, some bid, muid⟩ db).db bid
        = some pr' ∧
      pr'.id = pr.id ∧ pr'.status = "failed" ∧ pr'.gateway_payment_id = some i ∧
      pr'.updated_at = now ∧ pr'.amount = pr.amount ∧ pr'.currency = pr.currency := by
  have hres : handle_payment_intent_failed [] now ⟨i, am, cu, some bid, muid⟩ db =
      ⟨updateBookingRow
        (updatePaymentRow db pr.id (fun p =>
          { p with status := "failed", gateway_payment_id := some i, updated_at := now }))
        bid "payment_failed" (some pr.id),
       [StoreOp.readPayment bid, StoreOp.updatePayment pr.id, StoreOp.updateBooking bid],
       .ok true, false⟩ := by
    simp [handle_payment_intent_failed, callFails_nil, hp]
  rw [hres]
  refine ⟨rfl, ?_⟩
  have hfind : findPayment
      (updatePaymentRow db pr.id (fun p =>
        { p with status := "failed", gateway_payment_id := some i, updated_at := now })) bid
      = some { pr with status := "failed", gateway_payment_id := some i, updated_at := now } := by
    unfold findPayment at hp ⊢
    unfold updatePaymentRow
    dsimp only
    rw [find?_map_of_pres _ _ _ (by
      intro p
      by_cases hc : p.id == pr.id <;> simp [hc])]
    rw [hp]
    simp
  refine ⟨{ pr with status := "failed", gateway_payment_id := some i, updated_at := now },
    ?_, rfl, rfl, rfl, rfl, rfl, rfl⟩
  rw [findPayment_updateBookingRow]
  exact hfind

/-- Witness for the amended C3 at a concrete store with an existing
pending payment row. -/
theorem failed_update_in_place_witness :
    (handle_payment_intent_failed [] 3 ⟨"pi_9", some 700, some "eur", some "B1", none⟩
      ⟨[⟨"B1", some "u1", some 50, "pending", none⟩],
       [⟨7, "B1", some "u1", "pending", none, 50, "usd", 0⟩], 8⟩).outcome = .ok true ∧
    ∃ pr',
      findPayment (handle_payment_intent_failed [] 3
        ⟨"pi_9", some 700, some "eur", some "B1", none⟩
        ⟨[⟨"B1", some "u1", some 50, "pending", none⟩],
         [⟨7, "B1", some "u1", "pending", none, 50, "usd", 0⟩], 8⟩).db "B1" = some pr' ∧
      pr'.id = (7 : Nat) ∧ pr'.status = "failed" ∧ pr'.gateway_payment_id = some "pi_9" ∧
      pr'.updated_at = 3 ∧ pr'.amount = (50 : ℚ) ∧ pr'.currency = "usd" :=
  failed_update_in_place "pi_9" (some 700) (some "eur") none "B1" 3
    ⟨[⟨"B1", some "u1", some 50, "pending", none⟩],
     [⟨7, "B1", some "u1", "pending", none, 50, "usd", 0⟩], 8⟩
    ⟨7, "B1", some "u1", "pending", none, 50, "usd", 0⟩ (by rfl)

/-- Claim C6: when the booking is present with a `total_price` differing from
the event amount (in major units) by more than the 0.01 tolerance, the
comparison fires only as a warning and never blocks the transition: the
handler still succeeds, some payment row for the booking reaches status
`succeeded`, and every booking row with that id reaches status `confirmed`. -/
theorem amount_mismatch_advisory (i : String) (a : Int) (c : String)
    (muid : Option String) (bid : String) (now : Nat) (db : DB) (b : Booking)
    (tp : ℚ)
    (hb : findBooking db bid = some b)
    (htp : b.total_price = some tp)
    (hmis : |tp - (a : ℚ) / 100| > 1 / 100) :
    (handle_payment_intent_succeeded [] none now ⟨i, some a, some c, some bid, muid⟩ db).warned
      = true ∧
    (handle_payment_intent_succeeded [] none now ⟨i, some a, some c, some bid, muid⟩ db).outcome
      = .ok true ∧
    (∃ p ∈ (handle_payment_intent_succeeded [] none now
        ⟨i, some a, some c, some bid, muid⟩ db).db.payments,
      p.booking_id = bid ∧ p.status = "succeeded") ∧
    (∀ bk ∈ (handle_payment_intent_succeeded [] none now
        ⟨i, some a, some c, some bid, muid⟩ db).db.bookings,
      bk.id = bid → bk.status = "confirmed") := by
  cases hfp : findPayment db bid with
  | none =>
    have hnf := hasPaymentFor_eq_false db bid hfp
    have hread := findPayment_insert db bid
      (fun pid => ⟨pid, bid, b.user_id, "succeeded", some i, (a : ℚ) / 100, c, now⟩)
      hfp (by rfl)
    have hres : handle_payment_intent_succeeded [] none now
        ⟨i, some a, some c, some bid, muid⟩ db =
        ⟨updateBookingRow
           (insertPaymentRow db
             (fun pid => ⟨pid, bid, b.user_id, "succeeded", some i, (a : ℚ) / 100, c, now⟩))
           bid "confirmed" (some db.nextId),
         [StoreOp.readBooking bid, StoreOp.readPayment bid,
          StoreOp.insertPayment db.nextId, StoreOp.readPayment bid,
          StoreOp.updateBooking bid],
         .ok true, true⟩ := by
      simp [handle_payment_intent_succeeded, callFails_nil, hb, htp, hfp, hnf, hread]
      simpa using hmis
    rw [hres]
    refine ⟨rfl, rfl, ?_, ?_⟩
    · refine ⟨⟨db.nextId, bid, b.user_id, "succeeded", some i, (a : ℚ) / 100, c, now⟩,
        ?_, rfl, rfl⟩
      rw [updateBookingRow_payments, insertPaymentRow_payments]
      simp
    · intro bk hbk hid
      exact (updateBookingRow_mem_status _ bid "confirmed" (some db.nextId) bk hbk hid).1
  | some payRow =>
    have hres : handle_payment_intent_succeeded [] none now
        ⟨i, some a, some c, some bid, muid⟩ db =
        ⟨updateBookingRow
           (updatePaymentRow db payRow.id (fun p =>
             { p with status := "succeeded", gateway_payment_id := some i,
                      amount := (a : ℚ) / 100, currency := c, updated_at := now }))
           bid "confirmed" (some payRow.id),
         [StoreOp.readBooking bid, StoreOp.readPayment bid,
          StoreOp.updatePayment payRow.id, StoreOp.updateBooking bid],
         .ok true, true⟩ := by
      simp [handle_payment_intent_succeeded, callFails_nil, hb, htp, hfp]
      simpa using hmis
    rw [hres]
    refine ⟨rfl, rfl, ?_, ?_⟩
    · have hbid : payRow.booking_id = bid := by
        have := List.find?_some hfp
        simpa using this
      refine ⟨_, List.mem_map.mpr ⟨payRow, List.mem_of_find?_eq_some hfp, rfl⟩, ?_, ?_⟩
      · simpa using hbid
      · simp
    · intro bk hbk hid
      exact (updateBookingRow_mem_status _ bid "confirmed" (some payRow.id) bk hbk hid).1

/-- Witness for C6: the concrete scenario of §8 of the spec, booking
total_price 50.00 against event amount 4000 (40.00). -/
theorem amount_mismatch_advisory_witness :
    (handle_payment_intent_succeeded [] none 1
      ⟨"pi_1", some 4000, some "usd", some "B1", none⟩
      ⟨[⟨"B1", some "u1", some 50, "pending", none⟩], [], 0⟩).warned = true ∧
    (handle_payment_intent_succeeded [] none 1
      ⟨"pi_1", some 4000, some "usd", some "B1", none⟩
      ⟨[⟨"B1", some "u1", some 50, "pending", none⟩], [], 0⟩).outcome = .ok true ∧
    (∃ p ∈ (handle_payment_intent_succeeded [] none 1
        ⟨"pi_1", some 4000, some "usd", some "B1", none⟩
        ⟨[⟨"B1", some "u1", some 50, "pending", none⟩], [], 0⟩).db.payments,
      p.booking_id = "B1" ∧ p.status = "succeeded") ∧
    (∀ bk ∈ (handle_payment_intent_succeeded [] none 1
        ⟨"pi_1", some 4000, some "usd", some "B1", none⟩
        ⟨[⟨"B1", some "u1", some 50, "pending", none⟩], [], 0⟩).db.bookings,
      bk.id = "B1" → bk.status = "confirmed") :=
  amount_mismatch_advisory "pi_1" 4000 "usd" none "B1" 1
    ⟨[⟨"B1", some "u1", some 50, "pending", none⟩], [], 0⟩
    ⟨"B1", some "u1", some 50, "pending", none⟩ 50 (by rfl) rfl (by norm_num)

lemma findBooking_updatePaymentRow (db : DB) (pid : Nat) (f : Payment → Payment)
    (bid : String) : findBooking (updatePaymentRow db pid f) bid = findBooking db bid := rfl

/-- Claim C1: applying the same succeeded event twice to a store whose
booking exists and has no payment row inserts exactly once — the first
application takes the insert path, the second the update path — and the
final store has exactly one payment row for the booking, with status
`succeeded`, and the booking confirmed and linked to that row. -/
theorem succeeded_twice_idempotent (i : String) (a : Int) (c : String)
    (muid : Option String) (bid : String) (now1 now2 : Nat) (db : DB) (b : Booking)
    (hb : findBooking db bid = some b)
    (hp : db.payments.filter (fun p => p.booking_id == bid) = []) :
    (handle_payment_intent_succeeded [] none now1 ⟨i, some a, some c, some bid, muid⟩ db).ops
      = [.readBooking bid, .readPayment bid, .insertPayment db.nextId,
         .readPayment bid, .updateBooking bid] ∧
    (handle_payment_intent_succeeded [] none now1 ⟨i, some a, some c, some bid, muid⟩ db).outcome
      = .ok true ∧
    (handle_payment_intent_succeeded [] none now2 ⟨i, some a, some c, some bid, muid⟩
      (handle_payment_intent_succeeded [] none now1 ⟨i, some a, some c, some bid, muid⟩ db).db).ops
      = [.readBooking bid, .readPayment bid, .updatePayment db.nextId, .updateBooking bid] ∧
    (handle_payment_intent_succeeded [] none now2 ⟨i, some a, some c, some bid, muid⟩
      (handle_payment_intent_succeeded [] none now1 ⟨i, some a, some c, some bid, muid⟩ db).db).outcome
      = .ok true ∧
    ∃ pr : Payment,
      (handle_payment_intent_succeeded [] none now2 ⟨i, some a, some c, some bid, muid⟩
        (handle_payment_intent_succeeded [] none now1 ⟨i, some a, some c, some bid, muid⟩ db).db).db.payments.filter
          (fun p => p.booking_id == bid) = [pr] ∧
      pr.id = db.nextId ∧ pr.status = "succeeded" ∧
      findBooking (handle_payment_intent_succeeded [] none now2 ⟨i, some a, some c, some bid, muid⟩
        (handle_payment_intent_succeeded [] none now1 ⟨i, some a, some c, some bid, muid⟩ db).db).db bid
        = some { b with status := "confirmed", payment_id := some db.nextId } := by
  have hpn : findPayment db bid = none := findPayment_eq_none_of_filter_nil db bid hp
  have hnf := hasPaymentFor_eq_false db bid hpn
  have hread := findPayment_insert db bid
    (fun pid => ⟨pid, bid, b.user_id, "succeeded", some i, (a : ℚ) / 100, c, now1⟩)
    hpn (by rfl)
  have hbidb : (b.id == bid) = true := by simpa using List.find?_some hb
  have hbid2 : b.id = bid := by simpa using hbidb
  have hres1 : handle_payment_intent_succeeded [] none now1
      ⟨i, some a, some c, some bid, muid⟩ db =
      ⟨updateBookingRow
         (insertPaymentRow db
           (fun pid => ⟨pid, bid, b.user_id, "succeeded", some i, (a : ℚ) / 100, c, now1⟩))
         bid "confirmed" (some db.nextId),
       [.readBooking bid, .readPayment bid, .insertPayment db.nextId,
        .readPayment bid, .updateBooking bid],
       .ok true,
       (handle_payment_intent_succeeded [] none now1
         ⟨i, some a, some c, some bid, muid⟩ db).warned⟩ := by
    simp [handle_payment_intent_succeeded, callFails_nil, hb, hpn, hnf, hread]
  have hb2 : findBooking (handle_payment_intent_succeeded [] none now1
      ⟨i, some a, some c, some bid, muid⟩ db).db bid =
      some { b with status := "confirmed", payment_id := some db.nextId } := by
    rw [hres1]
    show findBooking (updateBookingRow _ _ _ _) _ = _
    rw [findBooking_updateBookingRow, findBooking_insertPaymentRow, hb]
    simp [hbid2]
  have hp2 : findPayment (handle_payment_intent_succeeded [] none now1
      ⟨i, some a, some c, some bid, muid⟩ db).db bid =
      some ⟨db.nextId, bid, b.user_id, "succeeded", some i, (a : ℚ) / 100, c, now1⟩ := by
    rw [hres1]
    show findPayment (updateBookingRow _ _ _ _) _ = _
    rw [findPayment_updateBookingRow]
    exact hread
  have hres2 : handle_payment_intent_succeeded [] none now2
      ⟨i, some a, some c, some bid, muid⟩
      (handle_payment_intent_succeeded [] none now1
        ⟨i, some a, some c, some bid, muid⟩ db).db =
      ⟨updateBookingRow
         (updatePaymentRow (handle_payment_intent_succeeded [] none now1
             ⟨i, some a, some c, some bid, muid⟩ db).db db.nextId
           (fun p => { p with status := "succeeded", gateway_payment_id := some i,
                              amount := (a : ℚ) / 100, currency := c, updated_at := now2 }))
         bid "confirmed" (some db.nextId),
       [.readBooking bid, .readPayment bid, .updatePayment db.nextId, .updateBooking bid],
       .ok true,
       (handle_payment_intent_succeeded [] none now2
         ⟨i, some a, some c, some bid, muid⟩
         (handle_payment_intent_succeeded [] none now1
           ⟨i, some a, some c, some bid, muid⟩ db).db).warned⟩ := by
    generalize hD : (handle_payment_intent_succeeded [] none now1
      ⟨i, some a, some c, some bid, muid⟩ db).db = D at hb2 hp2 ⊢
    simp [handle_payment_intent_succeeded, callFails_nil, hb2, hp2]
  refine ⟨by rw [hres1], by rw [hres1], by rw [hres2], by rw [hres2], ?_⟩
  refine ⟨⟨db.nextId, bid, b.user_id, "succeeded", some i, (a : ℚ) / 100, c, now2⟩, ?_, rfl, rfl, ?_⟩
  · rw [hres2]
    show ((updateBookingRow _ _ _ _).payments.filter _) = _
    rw [updateBookingRow_payments]
    show ((updatePaymentRow _ _ _).payments.filter _) = _
    unfold updatePaymentRow
    dsimp only
    rw [filter_map_of_pres _ _ _ (by
      intro p
      by_cases hc : p.id == db.nextId <;> simp [hc])]
    rw [hres1]
    show (((updateBookingRow _ _ _ _).payments.filter _).map _) = _
    rw [updateBookingRow_payments, insertPaymentRow_payments, List.filter_append, hp]
    simp
  · rw [hres2]
    show findBooking (updateBookingRow _ _ _ _) _ = _
    rw [findBooking_updateBookingRow, findBooking_updatePaymentRow, hb2]
    simp [hbid2]

/-- Witness for C1 at the concrete scenario of §8 of the spec: booking `B1`
with total_price 50.00, no payment row, event amount 5000. -/
theorem succeeded_twice_idempotent_witness :
    (handle_payment_intent_succeeded [] none 7
      ⟨"pi_1", some 5000, some "usd", some "B1", none⟩
      ⟨[⟨"B1", some "u1", some 50, "pending", none⟩], [], 0⟩).ops
      = [.readBooking "B1", .readPayment "B1", .insertPayment 0,
         .readPayment "B1", .updateBooking "B1"] ∧
    (handle_payment_intent_succeeded [] none 7
      ⟨"pi_1", some 5000, some "usd", some "B1", none⟩
      ⟨[⟨"B1", some "u1", some 50, "pending", none⟩], [], 0⟩).outcome = .ok true ∧
    (handle_payment_intent_succeeded [] none 8
      ⟨"pi_1", some 5000, some "usd", some "B1", none⟩
      (handle_payment_intent_succeeded [] none 7
        ⟨"pi_1", some 5000, some "usd", some "B1", none⟩
        ⟨[⟨"B1", some "u1", some 50, "pending", none⟩], [], 0⟩).db).ops
      = [.readBooking "B1", .readPayment "B1", .updatePayment 0, .updateBooking "B1"] ∧
    (handle_payment_intent_succeeded [] none 8
      ⟨"pi_1", some 5000, some "usd", some "B1", none⟩
      (handle_payment_intent_succeeded [] none 7
        ⟨"pi_1", some 5000, some "usd", some "B1", none⟩
        ⟨[⟨"B1", some "u1", some 50, "pending", none⟩], [], 0⟩).db).outcome = .ok true ∧
    ∃ pr : Payment,
      (handle_payment_intent_succeeded [] none 8
        ⟨"pi_1", some 5000, some "usd", some "B1", none⟩
        (handle_payment_intent_succeeded [] none 7
          ⟨"pi_1", some 5000, some "usd", some "B1", none⟩
          ⟨[⟨"B1", some "u1", some 50, "pending", none⟩], [], 0⟩).db).db.payments.filter
            (fun p => p.booking_id == "B1") = [pr] ∧
      pr.id = 0 ∧ pr.status = "succeeded" ∧
      findBooking (handle_payment_intent_succeeded [] none 8
        ⟨"pi_1", some 5000, some "usd", some "B1", none⟩
        (handle_payment_intent_succeeded [] none 7
          ⟨"pi_1", some 5000, some "usd", some "B1", none⟩
          ⟨[⟨"B1", some "u1", some 50, "pending", none⟩], [], 0⟩).db).db "B1"
        = some ⟨"B1", some "u1", some 50, "confirmed", some 0⟩ :=
  succeeded_twice_idempotent "pi_1" 5000 "usd" none "B1" 7 8
    ⟨[⟨"B1", some "u1", some 50, "pending", none⟩], [], 0⟩
    ⟨"B1", some "u1", some 50, "pending", none⟩ (by rfl) (by rfl)

/-- Claim C2, counterexample: when a concurrent actor inserts a payment row
for the same booking inside the read-insert window, the succeeded handler
does not fall back to the update path — the unique-constraint violation
escapes as a raw error (no try/except wraps the insert in the source), the
handler performs no further store operation, and the endpoint answers 500. -/
theorem insert_race_cex :
    (handle_payment_intent_succeeded []
      (some ⟨5, "B1", some "u2", "pending", none, 50, "usd", 0⟩) 7
      ⟨"pi_1", some 5000, some "usd", some "B1", none⟩
      ⟨[⟨"B1", some "u1", some 50, "pending", none⟩], [], 0⟩).outcome
      = .err false 500 "unique constraint violation on booking_id" ∧
    (handle_payment_intent_succeeded []
      (some ⟨5, "B1", some "u2", "pending", none, 50, "usd", 0⟩) 7
      ⟨"pi_1", some 5000, some "usd", some "B1", none⟩
      ⟨[⟨"B1", some "u1", some 50, "pending", none⟩], [], 0⟩).ops
      = [.readBooking "B1", .readPayment "B1"] ∧
    (stripe_webhook true (.ok "payment_intent.succeeded"
        ⟨"pi_1", some 5000, some "usd", some "B1", none⟩) []
      (some ⟨5, "B1", some "u2", "pending", none, 50, "usd", 0⟩) 7
      ⟨[⟨"B1", some "u1", some 50, "pending", none⟩], [], 0⟩).resp
      = .detailResp 500 "An unexpected error occurred during webhook processing." := by
  refine ⟨by rfl, by rfl, by rfl⟩

/-- Claim C2, amended: the handler does not catch the unique-constraint
violation — the insert loser aborts with a raw error and the endpoint
surfaces a 500 (so the gateway retries), with the concurrent row committed
and the bookings untouched; the retried delivery of the same event then
finds the row, takes the update path, and completes with the payment
succeeded and the booking confirmed and linked. -/
theorem insert_race_500_then_update (i : String) (a : Int) (c : String)
    (muid : Option String) (bid : String) (now1 now2 : Nat) (db : DB) (b : Booking)
    (q : Payment)
    (hb : findBooking db bid = some b)
    (hpn : findPayment db bid = none)
    (hq : q.booking_id = bid) :
    (handle_payment_intent_succeeded [] (some q) now1
      ⟨i, some a, some c, some bid, muid⟩ db).outcome
      = .err false 500 "unique constraint violation on booking_id" ∧
    (handle_payment_intent_succeeded [] (some q) now1
      ⟨i, some a, some c, some bid, muid⟩ db).ops
      = [.readBooking bid, .readPayment bid] ∧
    (handle_payment_intent_succeeded [] (some q) now1
      ⟨i, some a, some c, some bid, muid⟩ db).db.bookings = db.bookings ∧
    (handle_payment_intent_succeeded [] (some q) now1
      ⟨i, some a, some c, some bid, muid⟩ db).db.payments = db.payments ++ [q] ∧
    (stripe_webhook true (.ok "payment_intent.succeeded"
        ⟨i, some a, some c, some bid, muid⟩) [] (some q) now1 db).resp
      = .detailResp 500 "An unexpected error occurred during webhook processing." ∧
    (handle_payment_intent_succeeded [] none now2 ⟨i, some a, some c, some bid, muid⟩
      (handle_payment_intent_succeeded [] (some q) now1
        ⟨i, some a, some c, some bid, muid⟩ db).db).outcome = .ok true ∧
    (handle_payment_intent_succeeded [] none now2 ⟨i, some a, some c, some bid, muid⟩
      (handle_payment_intent_succeeded [] (some q) now1
        ⟨i, some a, some c, some bid, muid⟩ db).db).ops
      = [.readBooking bid, .readPayment bid, .updatePayment q.id, .updateBooking bid] ∧
    (∃ pr' : Payment,
      findPayment (handle_payment_intent_succeeded [] none now2
        ⟨i, some a, some c, some bid, muid⟩
        (handle_payment_intent_succeeded [] (some q) now1
          ⟨i, some a, some c, some bid, muid⟩ db).db).db bid = some pr' ∧
      pr'.id = q.id ∧ pr'.status = "succeeded") ∧
    findBooking (handle_payment_intent_succeeded [] none now2
      ⟨i, some a, some c, some bid, muid⟩
      (handle_payment_intent_succeeded [] (some q) now1
        ⟨i, some a, some c, some bid, muid⟩ db).db).db bid
      = some { b with status := "confirmed", payment_id := some q.id } := by
  have hbidb : (b.id == bid) = true := by simpa using List.find?_some hb
  have hbid2 : b.id = bid := by simpa using hbidb
  have hI : hasPaymentFor
      { db with payments := db.payments ++ [q], nextId := max db.nextId (q.id + 1) } bid
      = true := by
    unfold hasPaymentFor
    simp [hq]
  have hres1 : handle_payment_intent_succeeded [] (some q) now1
      ⟨i, some a, some c, some bid, muid⟩ db =
      ⟨{ db with payments := db.payments ++ [q], nextId := max db.nextId (q.id + 1) },
       [.readBooking bid, .readPayment bid],
       .err false 500 "unique constraint violation on booking_id",
       (handle_payment_intent_succeeded [] (some q) now1
         ⟨i, some a, some c, some bid, muid⟩ db).warned⟩ := by
    simp [handle_payment_intent_succeeded, callFails_nil, hb, hpn, hI]
  have hb2 : findBooking (handle_payment_intent_succeeded [] (some q) now1
      ⟨i, some a, some c, some bid, muid⟩ db).db bid = some b := by
    rw [hres1]
    exact hb
  have hp2 : findPayment (handle_payment_intent_succeeded [] (some q) now1
      ⟨i, some a, some c, some bid, muid⟩ db).db bid = some q := by
    rw [hres1]
    show List.find? _ (db.payments ++ [q]) = some q
    exact find?_append_right _ _ _ hpn (by simp [hq])
  have hres2 : handle_payment_intent_succeeded [] none now2
      ⟨i, some a, some c, some bid, muid⟩
      (handle_payment_intent_succeeded [] (some q) now1
        ⟨i, some a, some c, some bid, muid⟩ db).db =
      ⟨updateBookingRow
         (updatePaymentRow (handle_payment_intent_succeeded [] (some q) now1
             ⟨i, some a, some c, some bid, muid⟩ db).db q.id
           (fun p => { p with status := "succeeded", gateway_payment_id := some i,
                              amount := (a : ℚ) / 100, currency := c, updated_at := now2 }))
         bid "confirmed" (some q.id),
       [.readBooking bid, .readPayment bid, .updatePayment q.id, .updateBooking bid],
       .ok true,
       (handle_payment_intent_succeeded [] none now2
         ⟨i, some a, some c, some bid, muid⟩
         (handle_payment_intent_succeeded [] (some q) now1
           ⟨i, some a, some c, some bid, muid⟩ db).db).warned⟩ := by
    generalize hD : (handle_payment_intent_succeeded [] (some q) now1
      ⟨i, some a, some c, some bid, muid⟩ db).db = D at hb2 hp2 ⊢
    simp [handle_payment_intent_succeeded, callFails_nil, hb2, hp2]
  have hweb : (stripe_webhook true (.ok "payment_intent.succeeded"
      ⟨i, some a, some c, some bid, muid⟩) [] (some q) now1 db).resp
      = .detailResp 500 "An unexpected error occurred during webhook processing." := by
    unfold stripe_webhook
    dsimp only
    rw [if_pos rfl]
    dsimp only
    rw [hres1]
    rfl
  refine ⟨by rw [hres1], by rw [hres1], by rw [hres1], by rw [hres1], hweb,
    by rw [hres2], by rw [hres2], ?_, ?_⟩
  · refine ⟨{ q with status := "succeeded", gateway_payment_id := some i,
                     amount := (a : ℚ) / 100, currency := c, updated_at := now2 }, ?_, rfl, rfl⟩
    rw [hres2]
    show findPayment (updateBookingRow _ _ _ _) _ = _
    rw [findPayment_updateBookingRow]
    unfold findPayment at hp2 ⊢
    unfold updatePaymentRow
    dsimp only
    rw [find?_map_of_pres _ _ _ (by
      intro p
      by_cases hc : p.id == q.id <;> simp [hc])]
    rw [hp2]
    simp
  · rw [hres2]
    show findBooking (updateBookingRow _ _ _ _) _ = _
    rw [findBooking_updateBookingRow, findBooking_updatePaymentRow, hb2]
    simp [hbid2]

/-- Witness for the amended C2: booking `B1` with no payment row, a
concurrent actor committing payment row 5 inside the race window. -/
theorem insert_race_500_then_update_witness :
    (handle_payment_intent_succeeded []
      (some ⟨5, "B1", some "u2", "pending", none, 50, "usd", 0⟩) 7
      ⟨"pi_1", some 5000, some "usd", some "B1", none⟩
      ⟨[⟨"B1", some "u1", some 50, "pending", none⟩], [], 0⟩).outcome
      = .err false 500 "unique constraint violation on booking_id" ∧
    (handle_payment_intent_succeeded []
      (some ⟨5, "B1", some "u2", "pending", none, 50, "usd", 0⟩) 7
      ⟨"pi_1", some 5000, some "usd", some "B1", none⟩
      ⟨[⟨"B1", some "u1", some 50, "pending", none⟩], [], 0⟩).ops
      = [.readBooking "B1", .readPayment "B1"] ∧
    (handle_payment_intent_succeeded []
      (some ⟨5, "B1", some "u2", "pending", none, 50, "usd", 0⟩) 7
      ⟨"pi_1", some 5000, some "usd", some "B1", none⟩
      ⟨[⟨"B1", some "u1", some 50, "pending", none⟩], [], 0⟩).db.bookings
      = [⟨"B1", some "u1", some 50, "pending", none⟩] ∧
    (handle_payment_intent_succeeded []
      (some ⟨5, "B1", some "u2", "pending", none, 50, "usd", 0⟩) 7
      ⟨"pi_1", some 5000, some "usd", some "B1", none⟩
      ⟨[⟨"B1", some "u1", some 50, "pending", none⟩], [], 0⟩).db.payments
      = [] ++ [⟨5, "B1", some "u2", "pending", none, 50, "usd", 0⟩] ∧
    (stripe_webhook true (.ok "payment_intent.succeeded"
        ⟨"pi_1", some 5000, some "usd", some "B1", none⟩) []
      (some ⟨5, "B1", some "u2", "pending", none, 50, "usd", 0⟩) 7
      ⟨[⟨"B1", some "u1", some 50, "pending", none⟩], [], 0⟩).resp
      = .detailResp 500 "An unexpected error occurred during webhook processing." ∧
    (handle_payment_intent_succeeded [] none 8
      ⟨"pi_1", some 5000, some "usd", some "B1", none⟩
      (handle_payment_intent_succeeded []
        (some ⟨5, "B1", some "u2", "pending", none, 50, "usd", 0⟩) 7
        ⟨"pi_1", some 5000, some "usd", some "B1", none⟩
        ⟨[⟨"B1", some "u1", some 50, "pending", none⟩], [], 0⟩).db).outcome = .ok true ∧
    (handle_payment_intent_succeeded [] none 8
      ⟨"pi_1", some 5000, some "usd", some "B1", none⟩
      (handle_payment_intent_succeeded []
        (some ⟨5, "B1", some "u2", "pending", none, 50, "usd", 0⟩) 7
        ⟨"pi_1", some 5000, some "usd", some "B1", none⟩
        ⟨[⟨"B1", some "u1", some 50, "pending", none⟩], [], 0⟩).db).ops
      = [.readBooking "B1", .readPayment "B1", .updatePayment 5, .updateBooking "B1"] ∧
    (∃ pr' : Payment,
      findPayment (handle_payment_intent_succeeded [] none 8
        ⟨"pi_1", some 5000, some "usd", some "B1", none⟩
        (handle_payment_intent_succeeded []
          (some ⟨5, "B1", some "u2", "pending", none, 50, "usd", 0⟩) 7
          ⟨"pi_1", some 5000, some "usd", some "B1", none⟩
          ⟨[⟨"B1", some "u1", some 50, "pending", none⟩], [], 0⟩).db).db "B1" = some pr' ∧
      pr'.id = 5 ∧ pr'.status = "succeeded") ∧
    findBooking (handle_payment_intent_succeeded [] none 8
      ⟨"pi_1", some 5000, some "usd", some "B1", none⟩
      (handle_payment_intent_succeeded []
        (some ⟨5, "B1", some "u2", "pending", none, 50, "usd", 0⟩) 7
        ⟨"pi_1", some 5000, some "usd", some "B1", none⟩
        ⟨[⟨"B1", some "u1", some 50, "pending", none⟩], [], 0⟩).db).db "B1"
      = some ⟨"B1", some "u1", some 50, "confirmed", some 5⟩ :=
  insert_race_500_then_update "pi_1" 5000 "usd" none "B1" 7 8
    ⟨[⟨"B1", some "u1", some 50, "pending", none⟩], [], 0⟩
    ⟨"B1", some "u1", some 50, "pending", none⟩
    ⟨5, "B1", some "u2", "pending", none, 50, "usd", 0⟩ (by rfl) (by rfl) rfl

set_option maxHeartbeats 1000000 in
/-- Claim C8: in every execution of either reconciler handler — any store
state, event, fault pattern and race interleaving — a booking update occurs
at most once, only as the very last store call, and only after the payment
write completed; and whenever the handler stops with an error, the bookings
table is exactly as it was before the invocation. -/
theorem reconciler_booking_write_discipline (faults : List Bool)
    (interfere : Option Payment) (now : Nat) (pi : PaymentIntent) (db : DB) :
    (bookingWriteDiscipline false
        (handle_payment_intent_succeeded faults interfere now pi db).ops = true ∧
      match (handle_payment_intent_succeeded faults interfere now pi db).outcome with
      | .err _ _ _ =>
        (handle_payment_intent_succeeded faults interfere now pi db).db.bookings
          = db.bookings
      | .ok _ => True) ∧
    (bookingWriteDiscipline false
        (handle_payment_intent_failed faults now pi db).ops = true ∧
      match (handle_payment_intent_failed faults now pi db).outcome with
      | .err _ _ _ =>
        (handle_payment_intent_failed faults now pi db).db.bookings = db.bookings
      | .ok _ => True) := by
  refine ⟨?_, ?_⟩
  · unfold handle_payment_intent_succeeded
    iterate 8
      all_goals (try dsimp only)
      all_goals (repeat' split)
    all_goals
      simp_all [bookingWriteDiscipline, isPaymentWrite, insertPaymentRow, updatePaymentRow]
  · unfold handle_payment_intent_failed
    iterate 8
      all_goals (try dsimp only)
      all_goals (repeat' split)
    all_goals
      simp_all [bookingWriteDiscipline, isPaymentWrite, insertPaymentRow, updatePaymentRow]
